import Mathlib

/-!
Shallow embedding of pkg/ebpf/netlink/consumer.go (conntrack netlink
consumer of the datadog-agent): message checking, socket-error
classification, the buffer pool, the throttle protocol and the receive
loop, together with theorems settling the specification claims.

Floating-point sampling rates are modelled as exact rationals; the
decimal literals 0.8, 0.2, 1.0 of the source are exact in this model.
Byte buffers are lists of naturals, receive errors are strings (the
source classifies errors by substring matching on the error text), and
the code of collaborators that lives outside this repository slice
(NewSocket, SetBPF, the circuit breaker internals) enters as oracle
inputs of each loop iteration.
-/

/-- Netlink header type netlink.Noop (mdlayher/netlink). -/
def netlinkNoop : Nat := 1

/-- Netlink header type netlink.Error (mdlayher/netlink). -/
def netlinkError : Nat := 2

/-- Netlink header type netlink.Done, the multi-part done marker. -/
def netlinkDone : Nat := 3

/-- Model of netlink.Header: type and flags of a netlink message. -/
structure Header where
  type : Nat
  flags : Nat
  deriving DecidableEq, Repr

/-- Model of netlink.Message: header plus payload bytes. -/
structure Message where
  header : Header
  data : List Nat
  deriving DecidableEq, Repr

/-- Model of nlenc.Int32: decode the first four bytes as a little-endian
twos-complement 32-bit integer (0 on fewer than four bytes; the source
only calls it with at least four). -/
def nlencInt32 : List Nat → Int
  | b0 :: b1 :: b2 :: b3 :: _ =>
    let u : Nat := b0 % 256 + b1 % 256 * 256 + b2 % 256 * 65536 + b3 % 256 * 16777216
    if u < 2 ^ 31 then (u : Int) else (u : Int) - 2 ^ 32
  | _ => 0

/-- The errors checkMessage can return: errShortErrorMessage or a
syscall.Errno. -/
inductive MsgError where
  | errShortErrorMessage : MsgError
  | errno : Int → MsgError
  deriving DecidableEq, Repr

/-- Model of checkMessage from consumer.go: a message of header type
netlink.Error yields errShortErrorMessage when its payload holds fewer
than four bytes, and syscall.Errno(-c) when the four-byte code c is
nonzero; every other message yields no error. -/
def checkMessage (m : Message) : Option MsgError :=
  if m.header.type ≠ netlinkError then
    none
  else if m.data.length < 4 then
    some MsgError.errShortErrorMessage
  else
    let c := nlencInt32 m.data
    if c ≠ 0 then some (MsgError.errno (-1 * c)) else none

/-- The three-way classification produced by socketError. -/
inductive SockErrKind where
  | eof : SockErrKind
  | enobuf : SockErrKind
  | other : SockErrKind
  deriving DecidableEq, Repr

/-- Whether the first character list is an initial segment of the
second. -/
def startsWithChars : List Char → List Char → Bool
  | [], _ => true
  | _ :: _, [] => false
  | a :: as, b :: bs => a == b && startsWithChars as bs

/-- Whether the first character list occurs contiguously inside the
second. -/
def containsChars (sub : List Char) : List Char → Bool
  | [] => sub.isEmpty
  | b :: rest => startsWithChars sub (b :: rest) || containsChars sub rest

/-- Model of strings.Contains on the error text. -/
def strContains (s sub : String) : Bool :=
  containsChars sub.toList s.toList

/-- Model of socketError from consumer.go: classify a receive error by
substring matching on its message, "closed file" meaning end-of-stream
and "no buffer space" meaning ENOBUF; anything else passes through. -/
def socketError (err : String) : SockErrKind :=
  if strContains err "closed file" then SockErrKind.eof
  else if strContains err "no buffer space" then SockErrKind.enobuf
  else SockErrKind.other

/-- Model of bufferPool: the free list of the embedded sync.Pool plus
the inUse slot recording the buffer lent by the most recent Get.
Buffers are identified by numbers. -/
structure BufferPool where
  freeList : List Nat
  inUse : Option Nat
  deriving DecidableEq, Repr

/-- Model of bufferPool.Put (promoted from sync.Pool): return a buffer
to the free list; the inUse marker is untouched. -/
def BufferPool.Put (b : BufferPool) (buf : Nat) : BufferPool :=
  { b with freeList := buf :: b.freeList }

/-- Model of bufferPool.Get: take a pooled buffer, or a freshly
allocated one (fresh) when the pool is empty, and record it as inUse. -/
def BufferPool.Get (b : BufferPool) (fresh : Nat) : BufferPool × Nat :=
  match b.freeList with
  | buf :: rest => ({ freeList := rest, inUse := some buf }, buf)
  | [] => ({ freeList := [], inUse := some fresh }, fresh)

/-- Model of bufferPool.Reset: clear the inUse marker without releasing
the buffer. -/
def BufferPool.Reset (b : BufferPool) : BufferPool :=
  { b with inUse := none }

/-- Model of Event: an emitted batch of messages plus the borrowed
buffer handle (none models a nil buffer pointer). -/
structure Event where
  msgs : List Message
  buffer : Option Nat
  deriving DecidableEq, Repr

/-- Model of Event.Messages. -/
def Event.Messages (e : Event) : List Message := e.msgs

/-- Model of Event.Done from consumer.go: when the buffer field is not
nil the buffer is Put back into the pool.  The source does not clear the
buffer field, so Done acts on the pool only. -/
def Event.Done (e : Event) (p : BufferPool) : BufferPool :=
  match e.buffer with
  | some buf => p.Put buf
  | none => p

/-- The constant throttlingFactor = 0.8 (exact rational). -/
def throttlingFactor : ℚ := 0.8

/-- The constant minSamplingThreshold = 0.2 (exact rational). -/
def minSamplingThreshold : ℚ := 0.2

/-- The consumer state the throttle protocol acts on: the current
sampling rate. -/
structure ConsumerState where
  samplingRate : ℚ
  deriving DecidableEq, Repr

/-- Errors of initNetlinkSocket: the max-sampling-attempts safeguard, a
NewSocket failure, or a SetBPF failure. -/
inductive InitError where
  | maxSamplingAttempts : InitError
  | newSocketErr : InitError
  | setBPFErr : InitError
  deriving DecidableEq, Repr

/-- Model of initNetlinkSocket from consumer.go.  The flags newSocketOk
and setBPFOk are oracles for the success of NewSocket and socket.SetBPF,
whose code is outside this repository slice.  The rate threshold check
comes first; the sampling rate of the state is updated only after a socket
was built, and the BPF sampler is only attached when the rate is below
1.0. -/
def initNetlinkSocket (c : ConsumerState) (newSocketOk setBPFOk : Bool)
    (samplingRate : ℚ) : ConsumerState × Option InitError :=
  if samplingRate ≤ minSamplingThreshold then
    (c, some InitError.maxSamplingAttempts)
  else if !newSocketOk then
    (c, some InitError.newSocketErr)
  else
    let c2 : ConsumerState := { c with samplingRate := samplingRate }
    if 1 ≤ samplingRate then
      (c2, none)
    else if !setBPFOk then
      (c2, some InitError.setBPFErr)
    else
      (c2, none)

/-- The externally visible actions of the throttle protocol, in the
order the source performs them. -/
inductive ThrottleAction where
  | leaveGroup : ThrottleAction
  | closeSocket : ThrottleAction
  | initSocket : ℚ → ThrottleAction
  | resetBreaker : ThrottleAction
  | joinGroup : ThrottleAction
  deriving DecidableEq, Repr

/-- Model of Consumer.throttle from consumer.go: leave the multicast
group, close the socket, rebuild at samplingRate * throttlingFactor; on
failure return the error; on success reset the circuit breaker and
rejoin the group. -/
def throttle (c : ConsumerState) (newSocketOk setBPFOk : Bool) :
    List ThrottleAction × ConsumerState × Option InitError :=
  let newRate := c.samplingRate * throttlingFactor
  let r := initNetlinkSocket c newSocketOk setBPFOk newRate
  match r.2 with
  | some e =>
    ([ThrottleAction.leaveGroup, ThrottleAction.closeSocket,
      ThrottleAction.initSocket newRate], r.1, some e)
  | none =>
    ([ThrottleAction.leaveGroup, ThrottleAction.closeSocket,
      ThrottleAction.initSocket newRate, ThrottleAction.resetBreaker,
      ThrottleAction.joinGroup], r.1, none)

/-- The sampling-rate trajectory of repeated throttling, starting from
the NewConsumer state (rate 1.0), with socket creation succeeding
whenever the threshold check passes: rateSeq k is the state and error
after k throttle attempts; once an attempt fails no further socket is
built. -/
def rateSeq : Nat → ConsumerState × Option InitError
  | 0 => (⟨1.0⟩, none)
  | n + 1 =>
    let r := rateSeq n
    match r.2 with
    | some e => (r.1, some e)
    | none =>
      let t := throttle r.1 true true
      (t.2.1, t.2.2)

/-- The outcome of one Socket.Receive call: the returned batch and the
error, if any (the source inspects both even when the error is set). -/
structure RecvResult where
  msgs : List Message
  err : Option String
  deriving DecidableEq, Repr

/-- The external inputs of one iteration of the receive loop: the
Socket.Receive outcome, the buffer the pool lent during that read (the
inUse slot of the pool that eventFor snapshots), the answer the circuit
breaker gives to IsOpen after Tick, and the oracles for socket rebuilding inside
throttle. -/
structure IterInput where
  recv : RecvResult
  lent : Option Nat
  breakerOpen : Bool
  newSocketOk : Bool
  setBPFOk : Bool
  deriving DecidableEq, Repr

/-- Whether a loop iteration returns from receive or continues. -/
inductive Control where
  | ret : Control
  | cont : Control
  deriving DecidableEq, Repr

/-- The observable effects of a loop iteration: circuit-breaker Tick,
the IsOpen consultation, an invocation of the throttle protocol (with
its success), and an Event sent on the output channel. -/
inductive IterEffect where
  | tick : Nat → IterEffect
  | isOpenQuery : Bool → IterEffect
  | throttleInvoked : Bool → IterEffect
  | emit : Event → IterEffect
  deriving DecidableEq, Repr

/-- Result of one iteration of the receive loop. -/
structure IterResult where
  effects : List IterEffect
  state : ConsumerState
  control : Control
  deriving DecidableEq, Repr

/-- The multiPartDone test of the source: the batch is nonempty and its
last message has the Done header type. -/
def multiPartDoneOf (msgs : List Message) : Bool :=
  match msgs.getLast? with
  | some m => m.header.type == netlinkDone
  | none => false

/-- Whether some message of the batch fails checkMessage (the source
continues the outer loop at the first such message). -/
def batchHasError (msgs : List Message) : Bool :=
  msgs.any fun m => (checkMessage m).isSome

/-- The per-message check, done-marker stripping and emission phase of a
loop iteration (source lines after the circuit-breaker block): a batch
with a failing message is dropped and the iteration restarts; otherwise
a trailing done marker is stripped, the batch is emitted as one Event
carrying the lent buffer, and in dump mode a terminal iteration
returns. -/
def processBatch (dump : Bool) (c : ConsumerState) (inp : IterInput) : IterResult :=
  let msgs := inp.recv.msgs
  if batchHasError msgs then
    { effects := [], state := c, control := Control.cont }
  else
    let mpd := multiPartDoneOf msgs
    let emitted := if mpd then msgs.dropLast else msgs
    { effects := [IterEffect.emit { msgs := emitted, buffer := inp.lent }]
      state := c
      control := if dump && mpd then Control.ret else Control.cont }

/-- The throttle-and-dispatch snippet the source duplicates for ENOBUF
and for an open breaker: invoke throttle, return on failure, continue on
success. -/
def throttleStep (c : ConsumerState) (newSocketOk setBPFOk : Bool) : IterResult :=
  let t := throttle c newSocketOk setBPFOk
  match t.2.2 with
  | some _ =>
    { effects := [IterEffect.throttleInvoked false], state := t.2.1, control := Control.ret }
  | none =>
    { effects := [IterEffect.throttleInvoked true], state := t.2.1, control := Control.cont }

/-- The circuit-breaker phase of a loop iteration: skipped entirely in
dump mode; otherwise Tick the breaker with the batch size, consult
IsOpen, and throttle when the breaker is open. -/
def breakerPhase (dump : Bool) (c : ConsumerState) (inp : IterInput) : IterResult :=
  if dump then
    processBatch dump c inp
  else
    let pre := [IterEffect.tick inp.recv.msgs.length, IterEffect.isOpenQuery inp.breakerOpen]
    if inp.breakerOpen then
      let r := throttleStep c inp.newSocketOk inp.setBPFOk
      { effects := pre ++ r.effects, state := r.state, control := r.control }
    else
      let r := processBatch dump c inp
      { effects := pre ++ r.effects, state := r.state, control := r.control }

/-- One iteration of Consumer.receive: classify the receive error (EOF
returns; ENOBUF returns in dump mode and throttles in streaming mode;
any other error falls through), then run the breaker phase and batch
processing. -/
def receiveStep (dump : Bool) (c : ConsumerState) (inp : IterInput) : IterResult :=
  match inp.recv.err with
  | some e =>
    match socketError e with
    | SockErrKind.eof => { effects := [], state := c, control := Control.ret }
    | SockErrKind.enobuf =>
      if dump then
        { effects := [], state := c, control := Control.ret }
      else
        throttleStep c inp.newSocketOk inp.setBPFOk
    | SockErrKind.other => breakerPhase dump c inp
  | none => breakerPhase dump c inp

/-- The receive loop driven by a finite script of iteration inputs:
effects are concatenated in order; the final flag tells whether the loop
returned (true) or merely ran out of script (false). -/
def receiveLoop (dump : Bool) : ConsumerState → List IterInput → List IterEffect × ConsumerState × Bool
  | c, [] => ([], c, false)
  | c, inp :: rest =>
    let r := receiveStep dump c inp
    match r.control with
    | Control.ret => (r.effects, r.state, true)
    | Control.cont =>
      let t := receiveLoop dump r.state rest
      (r.effects ++ t.1, t.2.1, t.2.2)

/-- The events sent on the output channel during a run. -/
def sentEvents (effs : List IterEffect) : List Event :=
  effs.filterMap fun eff =>
    match eff with
    | IterEffect.emit ev => some ev
    | _ => none

/-- Model of a Go channel as observed by its consumer: the values sent
and the number of times close was called on it. -/
structure Channel where
  sent : List Event
  closes : Nat
  deriving DecidableEq, Repr

/-- Model of the closure Consumer.Events dispatches to the worker: join
the multicast group, then run the streaming receive loop.  The source
contains no close of the output channel on this path. -/
def eventsTask (c : ConsumerState) (script : List IterInput) : Channel :=
  let r := receiveLoop false c script
  { sent := sentEvents r.1, closes := 0 }

/-- Model of the closure Consumer.DumpTable dispatches to the worker:
with close(output) deferred, send the dump request (sendOk oracle),
validate the reply (validateOk oracle), and on success run the receive
loop in dump mode; every path runs the deferred close exactly once. -/
def dumpTableTask (sendOk validateOk : Bool) (c : ConsumerState)
    (script : List IterInput) : Channel :=
  if !sendOk then
    { sent := [], closes := 1 }
  else if !validateOk then
    { sent := [], closes := 1 }
  else
    let r := receiveLoop true c script
    { sent := sentEvents r.1, closes := 1 }

/-- Whether the receive outcome of an iteration falls through the error
switch of the source (no error, or an error classified neither EOF nor
ENOBUF) and thus reaches the breaker phase and batch processing. -/
def passesSwitch (inp : IterInput) : Bool :=
  match inp.recv.err with
  | none => true
  | some e =>
    match socketError e with
    | SockErrKind.other => true
    | _ => false

/-- Whether an effect is the emission of an Event containing a message
of the multi-part done header type. -/
def effectEmitsDone (eff : IterEffect) : Bool :=
  match eff with
  | IterEffect.emit ev => ev.msgs.any fun m => m.header.type == netlinkDone
  | _ => false

/-! ## Helper lemmas -/

theorem rateSeq_zero : rateSeq 0 = (⟨1⟩, none) := by
  norm_num [rateSeq]

theorem rateSeq_one : rateSeq 1 = (⟨0.8⟩, none) := by
  norm_num [rateSeq, rateSeq_zero, throttle, initNetlinkSocket,
    throttlingFactor, minSamplingThreshold]

theorem rateSeq_two : rateSeq 2 = (⟨0.64⟩, none) := by
  norm_num [show (2 : Nat) = 1 + 1 from rfl, rateSeq, rateSeq_one, throttle,
    initNetlinkSocket, throttlingFactor, minSamplingThreshold]

theorem rateSeq_three : rateSeq 3 = (⟨0.512⟩, none) := by
  norm_num [show (3 : Nat) = 2 + 1 from rfl, rateSeq, rateSeq_two, throttle,
    initNetlinkSocket, throttlingFactor, minSamplingThreshold]

theorem rateSeq_four : rateSeq 4 = (⟨0.4096⟩, none) := by
  norm_num [show (4 : Nat) = 3 + 1 from rfl, rateSeq, rateSeq_three, throttle,
    initNetlinkSocket, throttlingFactor, minSamplingThreshold]

theorem rateSeq_five : rateSeq 5 = (⟨0.32768⟩, none) := by
  norm_num [show (5 : Nat) = 4 + 1 from rfl, rateSeq, rateSeq_four, throttle,
    initNetlinkSocket, throttlingFactor, minSamplingThreshold]

theorem rateSeq_six : rateSeq 6 = (⟨0.262144⟩, none) := by
  norm_num [show (6 : Nat) = 5 + 1 from rfl, rateSeq, rateSeq_five, throttle,
    initNetlinkSocket, throttlingFactor, minSamplingThreshold]

theorem rateSeq_seven : rateSeq 7 = (⟨0.2097152⟩, none) := by
  norm_num [show (7 : Nat) = 6 + 1 from rfl, rateSeq, rateSeq_six, throttle,
    initNetlinkSocket, throttlingFactor, minSamplingThreshold]

theorem rateSeq_eight :
    rateSeq 8 = (⟨0.2097152⟩, some InitError.maxSamplingAttempts) := by
  norm_num [show (8 : Nat) = 7 + 1 from rfl, rateSeq, rateSeq_seven, throttle,
    initNetlinkSocket, throttlingFactor, minSamplingThreshold]

theorem throttle_from_one :
    throttle ⟨1⟩ true true
      = ([ThrottleAction.leaveGroup, ThrottleAction.closeSocket,
          ThrottleAction.initSocket 0.8, ThrottleAction.resetBreaker,
          ThrottleAction.joinGroup], ⟨0.8⟩, none) := by
  norm_num [throttle, initNetlinkSocket, throttlingFactor, minSamplingThreshold]

theorem throttle_from_fifth :
    throttle ⟨0.2⟩ true true
      = ([ThrottleAction.leaveGroup, ThrottleAction.closeSocket,
          ThrottleAction.initSocket 0.16], ⟨0.2⟩,
          some InitError.maxSamplingAttempts) := by
  norm_num [throttle, initNetlinkSocket, throttlingFactor, minSamplingThreshold]

theorem receiveLoop_effect_mem (dump : Bool) (c : ConsumerState)
    (script : List IterInput) (eff : IterEffect)
    (h : eff ∈ (receiveLoop dump c script).1) :
    ∃ c2 inp, inp ∈ script ∧ eff ∈ (receiveStep dump c2 inp).effects := by
  induction script generalizing c with
  | nil => simp [receiveLoop] at h
  | cons inp rest ih =>
    simp only [receiveLoop] at h
    split at h
    case _ =>
      exact ⟨c, inp, by simp, h⟩
    case _ =>
      rw [List.mem_append] at h
      rcases h with h | h
      · exact ⟨c, inp, by simp, h⟩
      · obtain ⟨c2, inp2, hm, he2⟩ := ih _ h
        exact ⟨c2, inp2, by simp [hm], he2⟩

theorem throttleStep_effects (c : ConsumerState) (okN okB : Bool) :
    (throttleStep c okN okB).effects
      = [IterEffect.throttleInvoked ((throttle c okN okB).2.2.isNone)] := by
  unfold throttleStep
  cases ht : (throttle c okN okB).2.2 <;> simp [ht]

theorem processBatch_emit (dump : Bool) (c : ConsumerState) (inp : IterInput)
    (ev : Event) (h : IterEffect.emit ev ∈ (processBatch dump c inp).effects) :
    batchHasError inp.recv.msgs = false
    ∧ ev = { msgs := (if multiPartDoneOf inp.recv.msgs then
                        inp.recv.msgs.dropLast
                      else inp.recv.msgs),
             buffer := inp.lent } := by
  unfold processBatch at h
  cases hb : batchHasError inp.recv.msgs with
  | true => simp [hb] at h
  | false =>
    simp [hb] at h
    exact ⟨rfl, h⟩

theorem breakerPhase_emit (dump : Bool) (c : ConsumerState) (inp : IterInput)
    (ev : Event) (h : IterEffect.emit ev ∈ (breakerPhase dump c inp).effects) :
    batchHasError inp.recv.msgs = false
    ∧ ev = { msgs := (if multiPartDoneOf inp.recv.msgs then
                        inp.recv.msgs.dropLast
                      else inp.recv.msgs),
             buffer := inp.lent } := by
  unfold breakerPhase at h
  cases dump with
  | true =>
    simp at h
    exact processBatch_emit true c inp ev h
  | false =>
    simp at h
    cases hb : inp.breakerOpen with
    | true =>
      rw [hb] at h
      simp [throttleStep_effects] at h
    | false =>
      rw [hb] at h
      simp at h
      exact processBatch_emit false c inp ev h

theorem receiveStep_emit (dump : Bool) (c : ConsumerState) (inp : IterInput)
    (ev : Event) (h : IterEffect.emit ev ∈ (receiveStep dump c inp).effects) :
    batchHasError inp.recv.msgs = false
    ∧ ev = { msgs := (if multiPartDoneOf inp.recv.msgs then
                        inp.recv.msgs.dropLast
                      else inp.recv.msgs),
             buffer := inp.lent } := by
  unfold receiveStep at h
  cases herr : inp.recv.err with
  | none =>
    simp only [herr] at h
    exact breakerPhase_emit dump c inp ev h
  | some e =>
    simp only [herr] at h
    cases hk : socketError e with
    | eof => simp [hk] at h
    | enobuf =>
      simp only [hk] at h
      cases dump with
      | true => simp at h
      | false => simp [throttleStep_effects] at h
    | other =>
      simp only [hk] at h
      exact breakerPhase_emit dump c inp ev h

theorem receiveStep_dump_emits_only (c : ConsumerState) (inp : IterInput)
    (eff : IterEffect) (h : eff ∈ (receiveStep true c inp).effects) :
    ∃ ev, eff = IterEffect.emit ev := by
  unfold receiveStep at h
  have hpb : ∀ eff2, eff2 ∈ (processBatch true c inp).effects →
      ∃ ev, eff2 = IterEffect.emit ev := by
    intro eff2 h2
    unfold processBatch at h2
    cases hb : batchHasError inp.recv.msgs with
    | true => simp [hb] at h2
    | false =>
      simp [hb] at h2
      exact ⟨_, h2⟩
  cases herr : inp.recv.err with
  | none =>
    simp only [herr] at h
    unfold breakerPhase at h
    simp at h
    exact hpb eff h
  | some e =>
    simp only [herr] at h
    cases hk : socketError e with
    | eof => simp [hk] at h
    | enobuf =>
      simp only [hk] at h
      simp at h
    | other =>
      simp only [hk] at h
      unfold breakerPhase at h
      simp at h
      exact hpb eff h

/-! ## Claim theorems -/

/-- C1: starting from sampling rate 1.0, repeated throttle invocations
(each multiplying the rate by 0.8, with socket initialization failing
when the candidate rate is at or below 0.2) visit exactly the rates 1.0,
0.8, 0.64, 0.512, 0.4096, 0.32768, 0.262144, 0.2097152; the 8th
throttle attempt computes 0.8^8 = 0.16777216 ≤ 0.2, so
initNetlinkSocket returns the max-sampling-attempts error and the state
acquires no further socket (its rate stays at the 7th value). -/
theorem throttle_rate_sequence :
    (List.range 8).map (fun k => (rateSeq k).1.samplingRate)
      = [1.0, 0.8, 0.64, 0.512, 0.4096, 0.32768, 0.262144, 0.2097152]
    ∧ ((List.range 8).all fun k => ((rateSeq k).2).isNone) = true
    ∧ (rateSeq 7).1.samplingRate * throttlingFactor = 0.16777216
    ∧ (rateSeq 7).1.samplingRate * throttlingFactor ≤ minSamplingThreshold
    ∧ minSamplingThreshold < (rateSeq 7).1.samplingRate
    ∧ (rateSeq 8).2 = some InitError.maxSamplingAttempts
    ∧ (rateSeq 8).1 = (rateSeq 7).1 := by
  refine ⟨?_, ?_, ?_, ?_, ?_, ?_, ?_⟩ <;>
    norm_num [List.range_succ, rateSeq_zero, rateSeq_one, rateSeq_two,
      rateSeq_three, rateSeq_four, rateSeq_five, rateSeq_six, rateSeq_seven,
      rateSeq_eight, throttlingFactor, minSamplingThreshold]

/-- C2: code-bug evidence.  When the streaming receive loop ends on
end-of-stream (a receive error containing "closed file"), the task
dispatched by Events has terminated, yet the output channel was closed
zero times: the source closure contains no close(output), contradicting
the claim (and the comment above Consumer.receive, which says the
channel is closed when an EOF is detected).  DumpTable, by contrast,
closes its channel exactly once via the deferred close. -/
theorem events_channel_never_closed :
    (receiveLoop false ⟨1⟩
      [⟨⟨[], some "use of closed file"⟩, none, false, true, true⟩]).2.2 = true
    ∧ (eventsTask ⟨1⟩
      [⟨⟨[], some "use of closed file"⟩, none, false, true, true⟩]).closes = 0
    ∧ (dumpTableTask true true ⟨1⟩
      [⟨⟨[], some "use of closed file"⟩, none, false, true, true⟩]).closes = 1 := by
  exact ⟨by decide, rfl, rfl⟩

/-- C3: counterexample.  Calling Done a second time is not a no-op on
the pool: for an Event lending buffer 0 and an empty pool, two Done
calls leave the free list [0, 0] whereas a single Done leaves [0]. -/
theorem done_twice_not_noop :
    ¬ (Event.Done ⟨[], some 0⟩ (Event.Done ⟨[], some 0⟩ ⟨[], none⟩)
        = Event.Done ⟨[], some 0⟩ ⟨[], none⟩) := by
  decide

/-- C3 (amended): Done is a no-op only when the buffer handle of the Event is
nil.  With a non-nil buffer, every Done performs another Put of the same
buffer, so Done after Done returns the buffer to the free list a second
time (double-counting its availability) instead of leaving the pool as
after a single Done. -/
theorem done_second_release_puts_again (e : Event) (p : BufferPool) (b : Nat)
    (h : e.buffer = some b) :
    Event.Done e p = BufferPool.Put p b
    ∧ Event.Done e (Event.Done e p) = BufferPool.Put (BufferPool.Put p b) b
    ∧ (Event.Done e (Event.Done e p)).freeList = b :: b :: p.freeList
    ∧ (Event.Done e p).freeList = b :: p.freeList := by
  simp [Event.Done, h, BufferPool.Put]

/-- Witness for the amended C3 theorem at a concrete event and pool. -/
theorem done_second_release_puts_again_witness :
    (⟨[], some 5⟩ : Event).buffer = some 5
    ∧ (Event.Done ⟨[], some 5⟩ (Event.Done ⟨[], some 5⟩ ⟨[2], none⟩)).freeList
        = 5 :: 5 :: [2] :=
  ⟨rfl, (done_second_release_puts_again ⟨[], some 5⟩ ⟨[2], none⟩ 5 rfl).2.2.1⟩

/-- C4: counterexample.  A batch whose done marker is not only in the
final position defeats the stripping: for the received batch consisting
of two Done-typed messages, the streaming loop strips only the last one
and emits an Event that still contains a done marker, so done markers
can appear in an emitted Event. -/
theorem emitted_event_with_done_marker :
    ((receiveStep false ⟨1⟩
        ⟨⟨[⟨⟨3, 0⟩, []⟩, ⟨⟨3, 0⟩, []⟩], none⟩, some 7, false, true, true⟩).effects.any
      effectEmitsDone) = true := by
  decide

/-- C4 (amended): the receive loop strips a done marker only from the
final position of a batch.  Provided every received batch carries
Done-typed messages only in its final position, no Event emitted by the
loop, in either streaming or dump mode, contains a done marker. -/
theorem done_markers_stripped_when_final_only (dump : Bool)
    (c : ConsumerState) (script : List IterInput)
    (h : ∀ inp ∈ script, ∀ m ∈ inp.recv.msgs.dropLast,
      m.header.type ≠ netlinkDone) :
    ∀ eff ∈ (receiveLoop dump c script).1, effectEmitsDone eff = false := by
  intro eff hm
  obtain ⟨c2, inp, hin, hstep⟩ := receiveLoop_effect_mem dump c script eff hm
  cases eff with
  | tick n => simp [effectEmitsDone]
  | isOpenQuery b => simp [effectEmitsDone]
  | throttleInvoked b => simp [effectEmitsDone]
  | emit ev =>
    obtain ⟨hb, hev⟩ := receiveStep_emit dump c2 inp ev hstep
    subst hev
    have hd := h inp hin
    simp only [effectEmitsDone]
    rw [List.any_eq_false]
    intro m hm2
    cases hmp : multiPartDoneOf inp.recv.msgs with
    | true =>
      rw [hmp] at hm2
      simp at hm2
      simpa using hd m hm2
    | false =>
      rw [hmp] at hm2
      simp at hm2
      by_cases hne : inp.recv.msgs = []
      · rw [hne] at hm2
        simp at hm2
      · rw [← List.dropLast_append_getLast hne, List.mem_append] at hm2
        rcases hm2 with hm2 | hm2
        · simpa using hd m hm2
        · rw [List.mem_singleton] at hm2
          subst hm2
          unfold multiPartDoneOf at hmp
          rw [List.getLast?_eq_getLast _ hne] at hmp
          simpa using hmp

/-- Witness for the amended C4 theorem: a streaming script with one
well-formed batch (a conntrack message followed by the done marker)
emits no done marker. -/
theorem done_markers_stripped_when_final_only_witness :
    (∀ inp ∈ [(⟨⟨[⟨⟨0, 0⟩, []⟩, ⟨⟨3, 0⟩, []⟩], none⟩, some 1, false, true,
        true⟩ : IterInput)],
      ∀ m ∈ inp.recv.msgs.dropLast, m.header.type ≠ netlinkDone)
    ∧ ∀ eff ∈ (receiveLoop false ⟨1⟩
        [⟨⟨[⟨⟨0, 0⟩, []⟩, ⟨⟨3, 0⟩, []⟩], none⟩, some 1, false, true, true⟩]).1,
      effectEmitsDone eff = false :=
  ⟨by decide,
    done_markers_stripped_when_final_only false ⟨1⟩
      [⟨⟨[⟨⟨0, 0⟩, []⟩, ⟨⟨3, 0⟩, []⟩], none⟩, some 1, false, true, true⟩]
      (by decide)⟩

/-- Under a fall-through receive outcome (no error, or an error
classified as neither EOF nor ENOBUF), the iteration is exactly the
breaker phase. -/
theorem receiveStep_passes (dump : Bool) (c : ConsumerState) (inp : IterInput)
    (hp : passesSwitch inp = true) :
    receiveStep dump c inp = breakerPhase dump c inp := by
  unfold receiveStep
  unfold passesSwitch at hp
  cases herr : inp.recv.err with
  | none => simp only [herr]
  | some e =>
    simp only [herr] at hp
    simp only [herr]
    cases hk : socketError e with
    | eof => simp only [hk] at hp; exact absurd hp (by simp)
    | enobuf => simp only [hk] at hp; exact absurd hp (by simp)
    | other => simp only [hk]

/-- C5: on an ENOBUF-classified receive error the dump-mode loop
returns at once without invoking the throttle protocol, while the
streaming loop invokes it, continuing (with the throttled state) when
the rebuild succeeds and returning when it fails. -/
theorem enobuf_handling (c : ConsumerState) (inp : IterInput) (e : String)
    (he : inp.recv.err = some e) (hk : socketError e = SockErrKind.enobuf) :
    receiveStep true c inp = { effects := [], state := c, control := Control.ret }
    ∧ ((throttle c inp.newSocketOk inp.setBPFOk).2.2 = none →
        receiveStep false c inp
          = { effects := [IterEffect.throttleInvoked true],
              state := (throttle c inp.newSocketOk inp.setBPFOk).2.1,
              control := Control.cont })
    ∧ (∀ er, (throttle c inp.newSocketOk inp.setBPFOk).2.2 = some er →
        receiveStep false c inp
          = { effects := [IterEffect.throttleInvoked false],
              state := (throttle c inp.newSocketOk inp.setBPFOk).2.1,
              control := Control.ret }) := by
  refine ⟨?_, ?_, ?_⟩
  · unfold receiveStep
    simp [he, hk]
  · intro hnone
    unfold receiveStep throttleStep
    simp only [he, hk, Bool.false_eq_true, if_false, hnone]
  · intro er her
    unfold receiveStep throttleStep
    simp only [he, hk, Bool.false_eq_true, if_false, her]

/-- Witness for C5 at a concrete ENOBUF error string and state, using
both modes; the streaming rebuild succeeds at rate 0.8. -/
theorem enobuf_handling_witness :
    ((⟨⟨[], some "no buffer space available"⟩, none, false, true, true⟩ :
        IterInput).recv.err = some "no buffer space available")
    ∧ socketError "no buffer space available" = SockErrKind.enobuf
    ∧ receiveStep true ⟨1⟩
        ⟨⟨[], some "no buffer space available"⟩, none, false, true, true⟩
        = { effects := [], state := ⟨1⟩, control := Control.ret }
    ∧ receiveStep false ⟨1⟩
        ⟨⟨[], some "no buffer space available"⟩, none, false, true, true⟩
        = { effects := [IterEffect.throttleInvoked true],
            state := (throttle ⟨1⟩ true true).2.1, control := Control.cont } := by
  refine ⟨rfl, by decide, ?_, ?_⟩
  · exact (enobuf_handling ⟨1⟩ _ _ rfl (by decide)).1
  · exact (enobuf_handling ⟨1⟩ _ _ rfl (by decide)).2.1 (by rw [throttle_from_one])

/-- C6: (a) per iteration — if the receive outcome falls through the
error switch, the breaker (consulted only in streaming mode) is closed,
and some message of the batch fails checkMessage, then the iteration
emits nothing, leaves the state unchanged, and continues the loop; (b)
globally — every Event emitted by the loop, in either mode, consists
only of messages that pass checkMessage, so a batch is never partially
emitted. -/
theorem bad_batch_dropped :
    (∀ (dump : Bool) (c : ConsumerState) (inp : IterInput),
      passesSwitch inp = true →
      (dump = true ∨ inp.breakerOpen = false) →
      batchHasError inp.recv.msgs = true →
      sentEvents (receiveStep dump c inp).effects = []
      ∧ (receiveStep dump c inp).control = Control.cont
      ∧ (receiveStep dump c inp).state = c)
    ∧ (∀ (dump : Bool) (c : ConsumerState) (script : List IterInput),
        ∀ eff ∈ (receiveLoop dump c script).1, ∀ ev, eff = IterEffect.emit ev →
          (ev.msgs.all fun m => (checkMessage m).isNone) = true) := by
  constructor
  · intro dump c inp hp hor hb
    rw [receiveStep_passes dump c inp hp]
    unfold breakerPhase processBatch
    cases dump with
    | true => simp [hb, sentEvents]
    | false =>
      rcases hor with h1 | h1
      · exact absurd h1 (by simp)
      · simp [h1, hb, sentEvents]
  · intro dump c script eff hm ev hev
    subst hev
    obtain ⟨c2, inp, hin, hstep⟩ := receiveLoop_effect_mem dump c script _ hm
    obtain ⟨hb, hev2⟩ := receiveStep_emit dump c2 inp ev hstep
    subst hev2
    have hall : ∀ m ∈ inp.recv.msgs, (checkMessage m).isNone = true := by
      intro m hm2
      unfold batchHasError at hb
      rw [List.any_eq_false] at hb
      have h2 := hb m hm2
      simp [Option.isNone_iff_eq_none]
      simpa [Option.not_isSome_iff_eq_none] using h2
    simp only []
    rw [List.all_eq_true]
    intro m hm2
    cases hmp : multiPartDoneOf inp.recv.msgs with
    | true =>
      rw [hmp] at hm2
      simp at hm2
      exact hall m ((List.dropLast_sublist inp.recv.msgs).subset hm2)
    | false =>
      rw [hmp] at hm2
      simp at hm2
      exact hall m hm2

/-- Witness for C6 at a concrete streaming iteration whose batch holds
one too-short netlink error message, and at a concrete one-iteration
script. -/
theorem bad_batch_dropped_witness :
    passesSwitch ⟨⟨[⟨⟨2, 0⟩, [1]⟩], none⟩, none, false, true, true⟩ = true
    ∧ batchHasError [⟨⟨2, 0⟩, [1]⟩] = true
    ∧ sentEvents (receiveStep false ⟨1⟩
        ⟨⟨[⟨⟨2, 0⟩, [1]⟩], none⟩, none, false, true, true⟩).effects = []
    ∧ (receiveStep false ⟨1⟩
        ⟨⟨[⟨⟨2, 0⟩, [1]⟩], none⟩, none, false, true, true⟩).control = Control.cont
    ∧ ∀ eff ∈ (receiveLoop false ⟨1⟩
        [⟨⟨[⟨⟨2, 0⟩, [1]⟩], none⟩, none, false, true, true⟩]).1,
        ∀ ev, eff = IterEffect.emit ev →
          (ev.msgs.all fun m => (checkMessage m).isNone) = true := by
  refine ⟨by decide, by decide, ?_, ?_, ?_⟩
  · exact (bad_batch_dropped.1 false ⟨1⟩ _ (by decide) (Or.inr rfl) (by decide)).1
  · exact (bad_batch_dropped.1 false ⟨1⟩ _ (by decide) (Or.inr rfl) (by decide)).2.1
  · exact bad_batch_dropped.2 false ⟨1⟩ _

/-- C7: in dump mode no loop iteration ever Ticks or consults the
circuit breaker, so the breaker never triggers throttling during a
table dump; in streaming mode every iteration that falls through the
error switch Ticks the breaker with the batch size and consults IsOpen,
and an open breaker invokes the throttle protocol, continuing the loop
(with the throttled state) on success and returning on failure. -/
theorem breaker_discipline :
    (∀ (c : ConsumerState) (script : List IterInput),
      ∀ eff ∈ (receiveLoop true c script).1,
        (∀ n, eff ≠ IterEffect.tick n) ∧ ∀ b, eff ≠ IterEffect.isOpenQuery b)
    ∧ (∀ (c : ConsumerState) (inp : IterInput), passesSwitch inp = true →
        (∃ rest, (receiveStep false c inp).effects
            = IterEffect.tick inp.recv.msgs.length
              :: IterEffect.isOpenQuery inp.breakerOpen :: rest)
        ∧ (inp.breakerOpen = true →
            (throttle c inp.newSocketOk inp.setBPFOk).2.2 = none →
            receiveStep false c inp
              = { effects := [IterEffect.tick inp.recv.msgs.length,
                    IterEffect.isOpenQuery true, IterEffect.throttleInvoked true],
                  state := (throttle c inp.newSocketOk inp.setBPFOk).2.1,
                  control := Control.cont })
        ∧ (inp.breakerOpen = true →
            ∀ er, (throttle c inp.newSocketOk inp.setBPFOk).2.2 = some er →
            receiveStep false c inp
              = { effects := [IterEffect.tick inp.recv.msgs.length,
                    IterEffect.isOpenQuery true, IterEffect.throttleInvoked false],
                  state := (throttle c inp.newSocketOk inp.setBPFOk).2.1,
                  control := Control.ret })) := by
  constructor
  · intro c script eff hm
    obtain ⟨c2, inp, hin, hstep⟩ := receiveLoop_effect_mem true c script eff hm
    obtain ⟨ev, hev⟩ := receiveStep_dump_emits_only c2 inp eff hstep
    subst hev
    exact ⟨fun n => by simp, fun b => by simp⟩
  · intro c inp hp
    rw [receiveStep_passes false c inp hp]
    refine ⟨?_, ?_, ?_⟩
    · unfold breakerPhase
      simp only [Bool.false_eq_true, if_false]
      cases hb : inp.breakerOpen with
      | true => exact ⟨_, rfl⟩
      | false => exact ⟨_, rfl⟩
    · intro hb hnone
      unfold breakerPhase throttleStep
      simp only [Bool.false_eq_true, if_false, hb, if_true, hnone]
      simp
    · intro hb er her
      unfold breakerPhase throttleStep
      simp only [Bool.false_eq_true, if_false, hb, if_true, her]
      simp

/-- Witness for C7: a one-batch dump script emits no breaker effects,
and a concrete streaming iteration with an open breaker throttles and
continues. -/
theorem breaker_discipline_witness :
    (∀ eff ∈ (receiveLoop true ⟨1⟩
        [⟨⟨[⟨⟨0, 0⟩, []⟩], none⟩, some 2, false, true, true⟩]).1,
      (∀ n, eff ≠ IterEffect.tick n) ∧ ∀ b, eff ≠ IterEffect.isOpenQuery b)
    ∧ passesSwitch ⟨⟨[⟨⟨0, 0⟩, []⟩], none⟩, some 2, true, true, true⟩ = true
    ∧ receiveStep false ⟨1⟩ ⟨⟨[⟨⟨0, 0⟩, []⟩], none⟩, some 2, true, true, true⟩
        = { effects := [IterEffect.tick 1, IterEffect.isOpenQuery true,
              IterEffect.throttleInvoked true],
            state := (throttle ⟨1⟩ true true).2.1, control := Control.cont } := by
  refine ⟨breaker_discipline.1 ⟨1⟩ _, by decide, ?_⟩
  exact (breaker_discipline.2 ⟨1⟩
    ⟨⟨[⟨⟨0, 0⟩, []⟩], none⟩, some 2, true, true, true⟩ (by decide)).2.1 rfl
    (by rw [throttle_from_one])

/-- A successful initNetlinkSocket installs the requested sampling rate
in the consumer state. -/
theorem initNetlinkSocket_success_rate (c : ConsumerState)
    (okN okB : Bool) (r : ℚ) (h : (initNetlinkSocket c okN okB r).2 = none) :
    (initNetlinkSocket c okN okB r).1.samplingRate = r := by
  unfold initNetlinkSocket at h ⊢
  split_ifs at h ⊢ <;> simp_all

/-- A candidate rate at or below the threshold makes initNetlinkSocket
fail with the max-sampling-attempts error, leaving the state intact. -/
theorem initNetlinkSocket_threshold (c : ConsumerState) (okN okB : Bool)
    (r : ℚ) (h : r ≤ minSamplingThreshold) :
    initNetlinkSocket c okN okB r = (c, some InitError.maxSamplingAttempts) := by
  unfold initNetlinkSocket
  rw [if_pos h]

/-- C8: the throttle protocol performs, in order, leave-group, close
socket, and a rebuild at rate × 0.8; on success it also resets the
breaker and rejoins the group (in that order, after the rebuild) and
installs the new rate; on failure — in particular whenever the
candidate rate is at or below 0.2, which forces the
max-sampling-attempts error and an unchanged state — it returns the
error having neither reset the breaker nor rejoined the group. -/
theorem throttle_protocol_order (c : ConsumerState) (okN okB : Bool) :
    ((throttle c okN okB).2.2 = none →
      (throttle c okN okB).1
        = [ThrottleAction.leaveGroup, ThrottleAction.closeSocket,
           ThrottleAction.initSocket (c.samplingRate * throttlingFactor),
           ThrottleAction.resetBreaker, ThrottleAction.joinGroup]
      ∧ (throttle c okN okB).2.1.samplingRate = c.samplingRate * throttlingFactor)
    ∧ (∀ er, (throttle c okN okB).2.2 = some er →
        (throttle c okN okB).1
          = [ThrottleAction.leaveGroup, ThrottleAction.closeSocket,
             ThrottleAction.initSocket (c.samplingRate * throttlingFactor)]
        ∧ ThrottleAction.resetBreaker ∉ (throttle c okN okB).1
        ∧ ThrottleAction.joinGroup ∉ (throttle c okN okB).1)
    ∧ (c.samplingRate * throttlingFactor ≤ minSamplingThreshold →
        (throttle c okN okB).2.2 = some InitError.maxSamplingAttempts
        ∧ (throttle c okN okB).2.1 = c) := by
  refine ⟨?_, ?_, ?_⟩
  · intro hnone
    unfold throttle at hnone ⊢
    cases hr : (initNetlinkSocket c okN okB (c.samplingRate * throttlingFactor)).2 with
    | some er => simp [hr] at hnone
    | none =>
      constructor
      · simp [hr]
      · simp only [hr]
        exact initNetlinkSocket_success_rate c okN okB _ hr
  · intro er her
    unfold throttle at her ⊢
    cases hr : (initNetlinkSocket c okN okB (c.samplingRate * throttlingFactor)).2 with
    | some er2 => simp [hr]
    | none => simp [hr] at her
  · intro hle
    have hinit := initNetlinkSocket_threshold c okN okB
      (c.samplingRate * throttlingFactor) hle
    unfold throttle
    simp [hinit]

/-- Witness for C8: a successful throttle from rate 1 produces the full
five-action sequence; a throttle from rate 0.2 hits the threshold, so
the rebuild fails, the breaker is not reset and the group is not
rejoined. -/
theorem throttle_protocol_order_witness :
    (throttle ⟨1⟩ true true).1
      = [ThrottleAction.leaveGroup, ThrottleAction.closeSocket,
         ThrottleAction.initSocket ((⟨1⟩ : ConsumerState).samplingRate * throttlingFactor),
         ThrottleAction.resetBreaker, ThrottleAction.joinGroup]
    ∧ (throttle ⟨0.2⟩ true true).2.2 = some InitError.maxSamplingAttempts
    ∧ ThrottleAction.resetBreaker ∉ (throttle ⟨0.2⟩ true true).1
    ∧ ThrottleAction.joinGroup ∉ (throttle ⟨0.2⟩ true true).1 := by
  refine ⟨?_, ?_, ?_, ?_⟩
  · exact ((throttle_protocol_order ⟨1⟩ true true).1 (by rw [throttle_from_one])).1
  · exact ((throttle_protocol_order ⟨0.2⟩ true true).2.2
      (by norm_num [throttlingFactor, minSamplingThreshold])).1
  · exact ((throttle_protocol_order ⟨0.2⟩ true true).2.1 _
      (by rw [throttle_from_fifth])).2.1
  · exact ((throttle_protocol_order ⟨0.2⟩ true true).2.1 _
      (by rw [throttle_from_fifth])).2.2

/-- C9: checkMessage returns an error if and only if the
header type of the message is the netlink Error type and either the payload is shorter
than four bytes (returning the distinct short-error-message error) or
the four-byte code is nonzero (returning the corresponding system error
number); all other messages, and Error-typed messages whose code is
zero, yield no error. -/
theorem checkMessage_characterization (m : Message) :
    ((checkMessage m).isSome ↔
      m.header.type = netlinkError
        ∧ (m.data.length < 4 ∨ nlencInt32 m.data ≠ 0))
    ∧ (m.header.type ≠ netlinkError → checkMessage m = none)
    ∧ (m.header.type = netlinkError → m.data.length < 4 →
        checkMessage m = some MsgError.errShortErrorMessage)
    ∧ (m.header.type = netlinkError → 4 ≤ m.data.length →
        nlencInt32 m.data ≠ 0 →
        checkMessage m = some (MsgError.errno (-(nlencInt32 m.data))))
    ∧ (m.header.type = netlinkError → 4 ≤ m.data.length →
        nlencInt32 m.data = 0 → checkMessage m = none) := by
  by_cases h1 : m.header.type = netlinkError
  · by_cases h2 : m.data.length < 4
    · have h2b : ¬ 4 ≤ m.data.length := by omega
      simp [checkMessage, h1, h2, h2b]
    · have h2b : 4 ≤ m.data.length := by omega
      by_cases h3 : nlencInt32 m.data = 0
      · simp [checkMessage, h1, h2, h2b, h3]
      · simp [checkMessage, h1, h2, h2b, h3, neg_one_mul]
  · simp [checkMessage, h1]

/-- Witness for C9 at concrete messages: a short Error-typed message, an
Error-typed message carrying code -5, and (via the iff) a Done-typed
message producing no error. -/
theorem checkMessage_characterization_witness :
    (⟨⟨2, 0⟩, [1]⟩ : Message).header.type = netlinkError
    ∧ (⟨⟨2, 0⟩, [1]⟩ : Message).data.length < 4
    ∧ checkMessage ⟨⟨2, 0⟩, [1]⟩ = some MsgError.errShortErrorMessage
    ∧ nlencInt32 [251, 255, 255, 255] ≠ 0
    ∧ checkMessage ⟨⟨2, 0⟩, [251, 255, 255, 255]⟩
        = some (MsgError.errno (-(nlencInt32 [251, 255, 255, 255])))
    ∧ ((⟨⟨3, 0⟩, []⟩ : Message).header.type ≠ netlinkError
        → checkMessage ⟨⟨3, 0⟩, []⟩ = none) := by
  refine ⟨rfl, by decide, ?_, by decide, ?_, ?_⟩
  · exact (checkMessage_characterization ⟨⟨2, 0⟩, [1]⟩).2.2.1 rfl (by decide)
  · exact (checkMessage_characterization
      ⟨⟨2, 0⟩, [251, 255, 255, 255]⟩).2.2.2.1 rfl (by decide) (by decide)
  · exact (checkMessage_characterization ⟨⟨3, 0⟩, []⟩).2.1

/-- C10: a receive error classified neither EOF nor ENOBUF neither ends
nor retries the iteration: the step is identical to that of a
successful read returning the same batch — in streaming mode the batch
length is Ticked into the breaker and IsOpen is consulted — and when
the breaker does not interfere and the batch is clean, the batch (with
a trailing done marker stripped) is emitted on the output channel. -/
theorem other_error_falls_through (dump : Bool) (c : ConsumerState)
    (inp : IterInput) (e : String) (he : inp.recv.err = some e)
    (hk : socketError e = SockErrKind.other) :
    receiveStep dump c inp
      = receiveStep dump c
          ⟨⟨inp.recv.msgs, none⟩, inp.lent, inp.breakerOpen,
            inp.newSocketOk, inp.setBPFOk⟩
    ∧ (∃ rest, (receiveStep false c inp).effects
        = IterEffect.tick inp.recv.msgs.length
          :: IterEffect.isOpenQuery inp.breakerOpen :: rest)
    ∧ ((dump = true ∨ inp.breakerOpen = false) →
        batchHasError inp.recv.msgs = false →
        IterEffect.emit { msgs := (if multiPartDoneOf inp.recv.msgs then
            inp.recv.msgs.dropLast else inp.recv.msgs), buffer := inp.lent }
          ∈ (receiveStep dump c inp).effects) := by
  have hp : passesSwitch inp = true := by
    unfold passesSwitch
    simp only [he, hk]
  refine ⟨?_, ?_, ?_⟩
  · rw [receiveStep_passes dump c inp hp]
    unfold receiveStep
    rfl
  · rw [receiveStep_passes false c inp hp]
    unfold breakerPhase
    simp only [Bool.false_eq_true, if_false]
    cases hb : inp.breakerOpen with
    | true => exact ⟨_, rfl⟩
    | false => exact ⟨_, rfl⟩
  · intro hor hb
    rw [receiveStep_passes dump c inp hp]
    unfold breakerPhase processBatch
    cases dump with
    | true => simp [hb]
    | false =>
      rcases hor with h1 | h1
      · exact absurd h1 (by simp)
      · simp [h1, hb]

/-- Witness for C10 at a concrete iteration whose receive error reads
"connection refused": the step equals the error-free step, ticks the
breaker with the batch size, and emits the batch. -/
theorem other_error_falls_through_witness :
    ((⟨⟨[⟨⟨0, 0⟩, []⟩], some "connection refused"⟩, some 3, false, true,
        true⟩ : IterInput).recv.err = some "connection refused")
    ∧ socketError "connection refused" = SockErrKind.other
    ∧ receiveStep false ⟨1⟩
        ⟨⟨[⟨⟨0, 0⟩, []⟩], some "connection refused"⟩, some 3, false, true, true⟩
      = receiveStep false ⟨1⟩
        ⟨⟨[⟨⟨0, 0⟩, []⟩], none⟩, some 3, false, true, true⟩
    ∧ IterEffect.emit ⟨[⟨⟨0, 0⟩, []⟩], some 3⟩
        ∈ (receiveStep false ⟨1⟩
          ⟨⟨[⟨⟨0, 0⟩, []⟩], some "connection refused"⟩, some 3, false, true,
            true⟩).effects := by
  refine ⟨rfl, by decide, ?_, ?_⟩
  · exact (other_error_falls_through false ⟨1⟩
      ⟨⟨[⟨⟨0, 0⟩, []⟩], some "connection refused"⟩, some 3, false, true, true⟩
      "connection refused" rfl (by decide)).1
  · exact (other_error_falls_through false ⟨1⟩
      ⟨⟨[⟨⟨0, 0⟩, []⟩], some "connection refused"⟩, some 3, false, true, true⟩
      "connection refused" rfl (by decide)).2.2 (Or.inr rfl) (by decide)

/-- C7: counterexample to "every loop iteration" — a streaming
iteration whose receive fails with an EOF-classified error returns
immediately with no effects at all, so it neither Ticks nor consults
the circuit breaker. -/
theorem streaming_eof_iteration_no_tick :
    (receiveStep false ⟨1⟩
        ⟨⟨[], some "use of closed file"⟩, none, false, true, true⟩).effects = []
    ∧ (receiveStep false ⟨1⟩
        ⟨⟨[], some "use of closed file"⟩, none, false, true, true⟩).control
      = Control.ret := by
  exact ⟨by decide, by decide⟩
